import Mathlib

/-!
Shallow embedding of the peer-to-peer messaging core in
src/src-tauri/src/main.rs.

Pure data is translated directly. Effectful Rust methods become pure
functions that take the relevant external inputs explicitly (the
operating-system outcome of listen_on, the current UTC time, the swarm
discovery events that would be pending) and return the command result
together with the successor state. Rust Result becomes Except, with the
String error type of the source.
-/

/-- Rust struct P2PMessage: three string fields content, sender and
timestamp, with derived serde Serialize and Deserialize. -/
structure P2PMessage where
  content : String
  sender : String
  timestamp : String
deriving Repr, DecidableEq

/-- The state of the Rust struct P2PNetwork that the claims depend on:
the stable local peer identifier derived from the keypair at
construction, whether listen_on has been registered on the swarm, and
the contents of the HashSet of peer identifiers, modelled as a list
snapshot. -/
structure P2PNetworkState where
  localPeerId : String
  listening : Bool
  peers : List String
deriving Repr, DecidableEq

/-- P2PNetwork::new generates an ed25519 keypair (external randomness;
the derived PeerId rendered as a string is passed in), builds the
transport and the mDNS behaviour, and creates an empty peer set. -/
def P2PNetwork.new (localPeerId : String) : P2PNetworkState :=
  { localPeerId := localPeerId, listening := false, peers := [] }

/-- The listen address hard-coded in P2PNetwork::start. -/
def listenAddrStr : String := "/ip4/0.0.0.0/tcp/0"

/-- Splitting a character list at every occurrence of a separator, the
list analogue of String.splitOn for a one-character separator. -/
def splitOnChar (sep : Char) : List Char → List (List Char)
  | [] => [[]]
  | c :: rest =>
    match splitOnChar sep rest with
    | [] => if c = sep then [[], [c]] else [[c]]
    | g :: gs => if c = sep then [] :: g :: gs else (c :: g) :: gs

/-- The numeric value of a decimal digit list, most significant first. -/
def digitsToNat (cs : List Char) : Nat :=
  cs.foldl (fun acc c => acc * 10 + (c.toNat - 48)) 0

/-- Minimal model of Multiaddr parsing for addresses of the shape
/ip4/HOST/tcp/PORT, the only shape the program uses. -/
def parseMultiaddr (s : String) : Except String (String × Nat) :=
  match splitOnChar '/' s.toList with
  | [[], p1, host, p2, port] =>
      if (String.mk p1 == "ip4") && (String.mk p2 == "tcp")
          && (decide (0 < port.length)) && port.all Char.isDigit then
        .ok (String.mk host, digitsToNat port)
      else .error "invalid multiaddr"
  | _ => .error "invalid multiaddr"

/-- P2PNetwork::start parses the fixed wildcard listen address, calls
swarm.listen_on (whose transport-level outcome is the explicit
listenResult input) and, on success, returns the fixed status string
rather than any bound address. -/
def P2PNetwork.start (s : P2PNetworkState) (listenResult : Except String Unit) :
    Except String String × P2PNetworkState :=
  match parseMultiaddr listenAddrStr with
  | .error e => (.error ("Parse error: " ++ e), s)
  | .ok _ =>
    match listenResult with
    | .error e => (.error ("Listen error: " ++ e), s)
    | .ok _ => (.ok "P2P network started", { s with listening := true })

/-- P2PNetwork::discover_peers returns the current peer-set snapshot
rendered to strings; it performs no mutation. -/
def P2PNetwork.discover_peers (s : P2PNetworkState) : Except String (List String) :=
  .ok s.peers

/-- The success string formatted by P2PNetwork::send_message for a
peer-set of size n. -/
def sentReport (n : Nat) : String :=
  "Message sent to " ++ toString n ++ " peers"

/-- P2PNetwork::send_message logs the message and returns Ok with the
success string for the current peer-set size; no per-peer delivery
happens (the body is a placeholder with no network I/O) and the state is
untouched. -/
def P2PNetwork.send_message (s : P2PNetworkState) (message : P2PMessage) :
    Except String String × P2PNetworkState :=
  (.ok (sentReport s.peers.length), s)

/-- A UTC instant carrying the fields that chrono to_rfc3339 prints. -/
structure UtcTime where
  year : Nat
  month : Nat
  day : Nat
  hour : Nat
  minute : Nat
  second : Nat
  nanos : Nat
deriving Repr, DecidableEq

/-- The decimal digit character for n modulo 10. -/
def digitChar (n : Nat) : Char := Char.ofNat (48 + n % 10)

/-- Zero-padded fixed-width decimal rendering, most significant digit
first, as chrono formats the bounded date and time fields. -/
def padDigits : Nat → Nat → List Char
  | 0, _ => []
  | k + 1, n => padDigits k (n / 10) ++ [digitChar n]

/-- chrono AutoSi fractional seconds: nothing when the nanosecond count
is zero, otherwise 3, 6 or 9 digits after a dot. -/
def autoSiFrac (nanos : Nat) : List Char :=
  if nanos = 0 then []
  else if nanos % 1000000 = 0 then '.' :: padDigits 3 (nanos / 1000000)
  else if nanos % 1000 = 0 then '.' :: padDigits 6 (nanos / 1000)
  else '.' :: padDigits 9 nanos

/-- chrono Utc::now().to_rfc3339(): date, time, AutoSi fraction and the
+00:00 offset of Utc. -/
def toRfc3339 (t : UtcTime) : String :=
  String.mk (padDigits 4 t.year ++ '-' :: padDigits 2 t.month ++ '-' :: padDigits 2 t.day
    ++ 'T' :: padDigits 2 t.hour ++ ':' :: padDigits 2 t.minute ++ ':' :: padDigits 2 t.second
    ++ autoSiFrac t.nanos ++ "+00:00".toList)

/-- The message built by the tauri command send_message: the given
content, the fixed sender string "local", and the rfc3339 rendering of
the current time. -/
def mkOutgoingMessage (content : String) (now : UtcTime) : P2PMessage :=
  { content := content, sender := "local", timestamp := toRfc3339 now }

/-- tauri command send_message: builds the outgoing message and hands it
to P2PNetwork::send_message. -/
def send_message_command (s : P2PNetworkState) (content : String) (now : UtcTime) :
    Except String String × P2PNetworkState :=
  P2PNetwork.send_message s (mkOutgoingMessage content now)

/-- tauri command connect_p2p: wraps P2PNetwork::start, rewording both
the success and the failure strings. -/
def connect_p2p (s : P2PNetworkState) (listenResult : Except String Unit) :
    Except String String × P2PNetworkState :=
  match P2PNetwork.start s listenResult with
  | (.ok _, s2) => (.ok "P2P network connection established successfully", s2)
  | (.error e, s2) => (.error ("Failed to connect to P2P network: " ++ e), s2)

/-- tauri command test_connection. -/
def test_connection (s : P2PNetworkState) : Except String String × P2PNetworkState :=
  (.ok "Tauri backend connection successful", s)

/-- An mDNS discovery event as the swarm behaviour would produce it. -/
inductive DiscoveryEvent where
  | discovered (peerId : String) (addresses : List String)
  | expired (peerId : String)
deriving Repr, DecidableEq

/-- One iteration of run_p2p_event_loop: the body sleeps 30 seconds,
then locks the network and calls discover_peers, logging the count. The
swarm is never polled, so the pendingEvents that accumulated at the
behaviour are ignored, and no write to the peer set ever occurs. -/
def run_p2p_event_loop_iter (s : P2PNetworkState) (pendingEvents : List DiscoveryEvent) :
    P2PNetworkState :=
  match P2PNetwork.discover_peers s with
  | .ok _ => s
  | .error _ => s

/-- Finitely many iterations of run_p2p_event_loop, each with the batch
of discovery events that would be pending during that iteration. -/
def run_p2p_event_loop_iters (s : P2PNetworkState) (batches : List (List DiscoveryEvent)) :
    P2PNetworkState :=
  batches.foldl run_p2p_event_loop_iter s

/-- The command names registered with tauri generate_handler in main. -/
def registeredCommands : List String :=
  ["test_connection", "connect_p2p", "discover_peers", "send_message"]

/-- The value a tauri invocation resolves to: a string-returning or a
list-returning handler result, or the tauri-level rejection for a
command name that generate_handler did not register. -/
inductive InvokeResult where
  | strRes : Except String String → InvokeResult
  | listRes : Except String (List String) → InvokeResult
  | commandNotFound : String → InvokeResult
deriving Repr

/-- An invocation arriving from the UI layer: one of the four registered
commands with its inputs, or any command name outside
registeredCommands (constructor unregistered), which tauri rejects
before any handler runs. -/
inductive Command where
  | testConnection
  | connectP2p (listenResult : Except String Unit)
  | discoverPeers
  | sendMessage (content : String) (now : UtcTime)
  | unregistered (name : String)

/-- Dispatch of one UI invocation against the shared state, following
the generate_handler list in main. -/
def invoke (s : P2PNetworkState) : Command → InvokeResult × P2PNetworkState
  | .testConnection =>
      match test_connection s with
      | (r, s2) => (.strRes r, s2)
  | .connectP2p lr =>
      match connect_p2p s lr with
      | (r, s2) => (.strRes r, s2)
  | .discoverPeers => (.listRes (P2PNetwork.discover_peers s), s)
  | .sendMessage content now =>
      match send_message_command s content now with
      | (r, s2) => (.strRes r, s2)
  | .unregistered name => (.commandNotFound name, s)

/-- Everything the program runs against the network state after main
constructs it: UI invocations and background event-loop iterations. -/
inductive ProgramOp where
  | cmd : Command → ProgramOp
  | eventLoopIter : List DiscoveryEvent → ProgramOp

/-- The state after one program operation. -/
def stepState (s : P2PNetworkState) : ProgramOp → P2PNetworkState
  | .cmd c => (invoke s c).2
  | .eventLoopIter evs => run_p2p_event_loop_iter s evs

/-- The state after a finite run of program operations. -/
def runProgram (init : P2PNetworkState) (ops : List ProgramOp) : P2PNetworkState :=
  ops.foldl stepState init

/-- The serde data model as far as the derived codecs of P2PMessage use
it: strings and structs with named fields. -/
inductive SerdeValue where
  | str : String → SerdeValue
  | record : List (String × SerdeValue) → SerdeValue
deriving Repr

/-- Derived serde Serialize for P2PMessage: a struct with the three
named string fields in declaration order. -/
def P2PMessage.serialize (m : P2PMessage) : SerdeValue :=
  .record [("content", .str m.content), ("sender", .str m.sender),
    ("timestamp", .str m.timestamp)]

/-- Expecting a string during deserialization. -/
def SerdeValue.asStr : SerdeValue → Except String String
  | .str s => .ok s
  | .record _ => .error "invalid type: expected a string"

/-- Field loop of the derived serde Deserialize for P2PMessage: fields
may arrive in any order, a duplicate field is an error, an unknown field
is skipped, and a missing field at the end is an error. -/
def readFields : List (String × SerdeValue) → Option String → Option String →
    Option String → Except String P2PMessage
  | [], some c, some s, some t => .ok ⟨c, s, t⟩
  | [], none, _, _ => .error "missing field content"
  | [], some _, none, _ => .error "missing field sender"
  | [], some _, some _, none => .error "missing field timestamp"
  | ("content", v) :: rest, c, s, t =>
      match c with
      | some _ => .error "duplicate field content"
      | none =>
        match v.asStr with
        | .ok str => readFields rest (some str) s t
        | .error e => .error e
  | ("sender", v) :: rest, c, s, t =>
      match s with
      | some _ => .error "duplicate field sender"
      | none =>
        match v.asStr with
        | .ok str => readFields rest c (some str) t
        | .error e => .error e
  | ("timestamp", v) :: rest, c, s, t =>
      match t with
      | some _ => .error "duplicate field timestamp"
      | none =>
        match v.asStr with
        | .ok str => readFields rest c s (some str)
        | .error e => .error e
  | (_, _) :: rest, c, s, t => readFields rest c s t

/-- Derived serde Deserialize for P2PMessage. -/
def P2PMessage.deserialize : SerdeValue → Except String P2PMessage
  | .record fields => readFields fields none none none
  | .str _ => .error "invalid type: expected struct P2PMessage"

/-- Modelled from the claim wording, for comparison with what the code
returns: whether an output string is a concrete /ip4/HOST/tcp/PORT
address whose port is greater than zero. -/
def isBoundAddressWithPositivePort (out : String) : Bool :=
  match parseMultiaddr out with
  | .ok (_, port) => decide (0 < port)
  | .error _ => false

/-- A concrete base58 PeerId string of the usual ed25519 shape, standing
for the identifier derived at startup in one concrete run. -/
def samplePeerId : String := "12D3KooWQCkBm1nKTSUE9z1sdVp5w2s9tYZHxtYufZ6zi2hmCSa9"

/-- A concrete UTC instant used by the concrete-input theorems. -/
def sampleTime : UtcTime :=
  { year := 2026, month := 10, day := 12, hour := 9, minute := 30, second := 0,
    nanos := 123000000 }

/-- A concrete reachable-shaped state with two connected peers, used to
evaluate send_message on a nonempty peer set. -/
def twoPeerState : P2PNetworkState :=
  { localPeerId := "QmLocalC1", listening := true, peers := ["QmPeerA", "QmPeerB"] }

/-- One event-loop iteration during which a discovery event for peer
QmPeerX with one address is pending at the swarm. -/
def discoveredXBatch : List (List DiscoveryEvent) :=
  [[DiscoveryEvent.discovered "QmPeerX" ["/ip4/192.168.0.7/tcp/4001"]]]

/-- The state after the UI layer attempts to invoke a shutdown command. -/
def afterShutdownAttempt : P2PNetworkState :=
  (invoke (P2PNetwork.new "QmLocalC8") (Command.unregistered "shutdown")).2

theorem parse_listenAddr : parseMultiaddr listenAddrStr = .ok ("0.0.0.0", 0) := rfl

theorem stepState_peers (s : P2PNetworkState) (op : ProgramOp) :
    (stepState s op).peers = s.peers := by
  cases op with
  | cmd c =>
    cases c with
    | testConnection => rfl
    | connectP2p lr => cases lr <;> rfl
    | discoverPeers => rfl
    | sendMessage content now => rfl
    | unregistered name => rfl
  | eventLoopIter evs => rfl

theorem runProgram_peers (s : P2PNetworkState) (ops : List ProgramOp) :
    (runProgram s ops).peers = s.peers := by
  induction ops generalizing s with
  | nil => rfl
  | cons op rest ih =>
    calc (runProgram s (op :: rest)).peers
        = (runProgram (stepState s op) rest).peers := rfl
      _ = (stepState s op).peers := ih _
      _ = s.peers := stepState_peers s op

/-- Sanity check of the chrono rfc3339 model on a concrete instant. -/
theorem toRfc3339_sample :
    toRfc3339 sampleTime = "2026-10-12T09:30:00.123+00:00" := rfl

/-- C9: no operation of the program writes the peers set after
P2PNetwork.new creates it empty, so in every reachable state the set is
empty and discover_peers returns the empty list. -/
theorem peers_set_never_mutated :
    (∀ (s : P2PNetworkState) (op : ProgramOp), (stepState s op).peers = s.peers) ∧
    (∀ (pid : String) (ops : List ProgramOp),
      (runProgram (P2PNetwork.new pid) ops).peers = [] ∧
      P2PNetwork.discover_peers (runProgram (P2PNetwork.new pid) ops) = .ok []) := by
  refine ⟨stepState_peers, ?_⟩
  intro pid ops
  have h : (runProgram (P2PNetwork.new pid) ops).peers = [] := runProgram_peers _ _
  exact ⟨h, by simp [P2PNetwork.discover_peers, h]⟩

/-- C10: for every message and every state, P2PNetwork.send_message
returns Ok (never Err) with the success string for the current peer
count, and leaves the whole state unchanged. -/
theorem send_message_always_ok_state_unchanged (s : P2PNetworkState) (m : P2PMessage) :
    (P2PNetwork.send_message s m).1 = .ok (sentReport s.peers.length) ∧
    (P2PNetwork.send_message s m).2 = s ∧
    ∃ r, (P2PNetwork.send_message s m).1 = .ok r :=
  ⟨rfl, rfl, sentReport s.peers.length, rfl⟩

/-- C4: broadcasting with zero connected peers is a success with a
sent-count of 0 and is never reported as an error. -/
theorem send_message_zero_peers_is_success (s : P2PNetworkState) (m : P2PMessage)
    (h : s.peers = []) :
    (P2PNetwork.send_message s m).1 = .ok "Message sent to 0 peers" ∧
    ∃ r, (P2PNetwork.send_message s m).1 = .ok r := by
  have hl : s.peers.length = 0 := by rw [h]; rfl
  constructor
  · show Except.ok (sentReport s.peers.length) = _
    rw [hl]
    rfl
  · exact ⟨sentReport s.peers.length, rfl⟩

theorem send_message_zero_peers_is_success_witness :
    (P2PNetwork.new "QmWitnessC4").peers = [] ∧
    ((P2PNetwork.send_message (P2PNetwork.new "QmWitnessC4")
          (mkOutgoingMessage "hi" sampleTime)).1 = .ok "Message sent to 0 peers" ∧
      ∃ r, (P2PNetwork.send_message (P2PNetwork.new "QmWitnessC4")
          (mkOutgoingMessage "hi" sampleTime)).1 = .ok r) :=
  ⟨rfl, send_message_zero_peers_is_success _ _ rfl⟩

/-- C5: deserializing the serialization of any P2PMessage succeeds and
returns a message equal to the original in all three fields. -/
theorem serde_roundtrip_message (m : P2PMessage) :
    P2PMessage.deserialize (P2PMessage.serialize m) = .ok m := rfl

/-- C1: evaluation at the failing input of the claim. With two connected
peers and any per-peer fault scenario, send_message performs no per-peer
delivery at all: it reports the total peer count 2 as sent, records no
failure, and leaves the state unchanged, where the claim requires a
sent-count of 1 and exactly one recorded failure when one peer faults. -/
theorem send_message_reports_total_despite_faults :
    (P2PNetwork.send_message twoPeerState (mkOutgoingMessage "hi" sampleTime)).1
        = .ok "Message sent to 2 peers" ∧
    (P2PNetwork.send_message twoPeerState (mkOutgoingMessage "hi" sampleTime)).2
        = twoPeerState :=
  ⟨rfl, rfl⟩

/-- C2: evaluation at the failing input of the claim. After the event
loop runs an iteration during which a discovery event for QmPeerX is
pending, the registry is still empty and does not contain QmPeerX,
where the claim requires the registry to equal the discovered set. -/
theorem event_loop_ignores_discovery_events :
    (run_p2p_event_loop_iters (P2PNetwork.new "QmLocalC2") discoveredXBatch).peers = [] ∧
    ((run_p2p_event_loop_iters (P2PNetwork.new "QmLocalC2")
        discoveredXBatch).peers.contains "QmPeerX") = false :=
  ⟨rfl, rfl⟩

/-- C7: evaluation at the failing input of the claim. After a discovery
event for peer QmPeerX with one address, discover_peers returns the
empty list, not the one-element list holding QmPeerX. -/
theorem discover_peers_after_discovery_event :
    P2PNetwork.discover_peers
        (run_p2p_event_loop_iters (P2PNetwork.new "QmLocalC7")
          [[DiscoveryEvent.discovered "QmPeerX" ["/ip4/192.168.0.8/tcp/4001"]]])
      = .ok [] ∧
    decide (([] : List String) = ["QmPeerX"]) = false :=
  ⟨rfl, by decide⟩

/-- C8: evaluation at the failing input of the claim. The command
shutdown is not among the registered commands, so invoking it yields the
tauri command-not-found rejection, and a subsequent discover_peers still
succeeds with Ok rather than returning any ActorStopped error. -/
theorem shutdown_unregistered_commands_still_served :
    (invoke (P2PNetwork.new "QmLocalC8") (Command.unregistered "shutdown")).1
        = InvokeResult.commandNotFound "shutdown" ∧
    (invoke afterShutdownAttempt Command.discoverPeers).1
        = InvokeResult.listRes (.ok []) ∧
    registeredCommands.contains "shutdown" = false :=
  ⟨rfl, rfl, by decide⟩

/-- C3 counterexample: on a fresh state with a successful listen
registration, start returns Ok of the fixed status string, which is not
a concrete bound address with a positive port. -/
theorem start_returns_fixed_status_not_bound_address :
    (P2PNetwork.start (P2PNetwork.new "QmLocalC3") (.ok ())).1 = .ok "P2P network started" ∧
    isBoundAddressWithPositivePort "P2P network started" = false :=
  ⟨rfl, by decide⟩

/-- C3 amended: when the hard-coded wildcard address parses and listen
registration succeeds, start returns the fixed status string (not a
bound address) and records that it is listening; a listen failure e is
surfaced as the Listen error string. -/
theorem start_success_fixed_status_string (s : P2PNetworkState) :
    (P2PNetwork.start s (.ok ())).1 = .ok "P2P network started" ∧
    (P2PNetwork.start s (.ok ())).2 = { s with listening := true } ∧
    isBoundAddressWithPositivePort "P2P network started" = false ∧
    (∀ e, P2PNetwork.start s (.error e) = (.error ("Listen error: " ++ e), s)) :=
  ⟨rfl, rfl, by decide, fun _ => rfl⟩

/-- C6 counterexample: in a concrete run whose derived PeerId is
samplePeerId, the message built by the send_message command carries the
fixed sender string local, which differs from the local identifier. -/
theorem outgoing_sender_not_local_peer_id :
    (mkOutgoingMessage "hi" sampleTime).sender = "local" ∧
    ((mkOutgoingMessage "hi" sampleTime).sender
        == (P2PNetwork.new samplePeerId).localPeerId) = false :=
  ⟨rfl, by decide⟩

/-- C6 amended: the message built by the send_message command has sender
equal to the fixed string local (hence different from the derived PeerId
whenever that identifier is not the literal local), timestamp equal to
the rfc3339 rendering of the current time, and is exactly the message
handed to P2PNetwork.send_message. -/
theorem outgoing_message_sender_fixed_local (s : P2PNetworkState) (content : String)
    (now : UtcTime) (h : s.localPeerId ≠ "local") :
    (mkOutgoingMessage content now).sender = "local" ∧
    (mkOutgoingMessage content now).sender ≠ s.localPeerId ∧
    (mkOutgoingMessage content now).timestamp = toRfc3339 now ∧
    send_message_command s content now
      = P2PNetwork.send_message s (mkOutgoingMessage content now) := by
  refine ⟨rfl, ?_, rfl, rfl⟩
  intro he
  exact h he.symm

theorem outgoing_message_sender_fixed_local_witness :
    (P2PNetwork.new samplePeerId).localPeerId ≠ "local" ∧
    ((mkOutgoingMessage "hi" sampleTime).sender = "local" ∧
      (mkOutgoingMessage "hi" sampleTime).sender
        ≠ (P2PNetwork.new samplePeerId).localPeerId ∧
      (mkOutgoingMessage "hi" sampleTime).timestamp = toRfc3339 sampleTime ∧
      send_message_command (P2PNetwork.new samplePeerId) "hi" sampleTime
        = P2PNetwork.send_message (P2PNetwork.new samplePeerId)
            (mkOutgoingMessage "hi" sampleTime)) :=
  ⟨by decide, outgoing_message_sender_fixed_local (P2PNetwork.new samplePeerId) "hi"
      sampleTime (by decide)⟩
